import Mathlib

/-!
Verification of the AIFUNCTION repository against its specification.

The repository is a set of serverless JavaScript functions: an HTTP chat
ingest function that validates a payload and enqueues a message envelope, a
queue-triggered worker that retrieves RAG context, fans out over configured
models, scores each answer and selects the best one, a small orchestrator
module with its own confidence computation, and a provisioning pipeline
described only by its README.

Modelling conventions of the shallow embedding: JavaScript numbers are
rationals, external calls (vector search, chat completions, provisioning
steps) are explicit outcome parameters of type Except, the falsy-or idiom
of JavaScript is an explicit function, and each handler is a pure function
of its request plus its environment inputs (current time, call outcomes).
-/

namespace AIFunction

/-- Characters matched by the JavaScript regex class backslash-s, used by the
word splitter inside calculateConfidenceScore. -/
def isJsWhitespace (c : Char) : Bool :=
  decide (c.toNat = 32 ∨ (9 ≤ c.toNat ∧ c.toNat ≤ 13) ∨ c.toNat = 0xa0 ∨
    c.toNat = 0x1680 ∨ (0x2000 ≤ c.toNat ∧ c.toNat ≤ 0x200a) ∨ c.toNat = 0x2028 ∨
    c.toNat = 0x2029 ∨ c.toNat = 0x202f ∨ c.toNat = 0x205f ∨ c.toNat = 0x3000 ∨
    c.toNat = 0xfeff)

/-- Number of maximal runs of non-whitespace characters; the Bool argument
records whether the scan is currently inside such a run. -/
def countWordRuns : Bool → List Char → ℕ
  | _, [] => 0
  | inRun, c :: cs =>
    if isJsWhitespace c then countWordRuns false cs
    else (if inRun then 0 else 1) + countWordRuns true cs

/-- Length of the array produced by the JavaScript expression
response.split with separator regex backslash-s-plus: one element per
non-whitespace run, plus an empty leading element when the string starts
with whitespace and an empty trailing element when it ends with whitespace;
the empty string splits to a single empty element. -/
def jsSplitWsLength (s : List Char) : ℕ :=
  match s with
  | [] => 1
  | c :: cs =>
      countWordRuns false (c :: cs)
        + (if isJsWhitespace c then 1 else 0)
        + (if isJsWhitespace ((c :: cs).getLast (List.cons_ne_nil c cs)) then 1 else 0)

/-- Embedding of calculateConfidenceScore from chatWorker.js: base 0.7,
multiplied by the RAG factor, a completion-reason factor and a word-count
factor, capped at 1.0. -/
def calculateConfidenceScore (response : String) (ragScore : ℚ)
    (finishReason : String) : ℚ :=
  let baseConfidence : ℚ := 0.7
  let confidenceRag := baseConfidence * (0.7 + 0.3 * ragScore)
  let confidenceFinish :=
    if finishReason = "stop" then confidenceRag * 1.0
    else if finishReason = "length" then confidenceRag * 0.8
    else confidenceRag * 0.6
  let wordCount := jsSplitWsLength response.toList
  let confidenceLen :=
    if 20 ≤ wordCount ∧ wordCount ≤ 200 then confidenceFinish * 1.0
    else if wordCount < 20 then confidenceFinish * 0.8
    else confidenceFinish * 0.9
  min confidenceLen 1.0

/-- Completion factor exactly as the specification tabulates it. -/
def completionFactor (finishReason : String) : ℚ :=
  if finishReason = "stop" then 1.0
  else if finishReason = "length" then 0.8
  else 0.6

/-- Length factor exactly as the specification tabulates it. -/
def lengthFactor (wordCount : ℕ) : ℚ :=
  if 20 ≤ wordCount ∧ wordCount ≤ 200 then 1.0
  else if wordCount < 20 then 0.8
  else 0.9

theorem completionFactor_nonneg (finishReason : String) :
    0 ≤ completionFactor finishReason := by
  unfold completionFactor
  split_ifs <;> norm_num

theorem lengthFactor_nonneg (wordCount : ℕ) :
    0 ≤ lengthFactor wordCount := by
  unfold lengthFactor
  split_ifs <;> norm_num

/-- C1: the confidence scorer is a deterministic pure function equal to the
specification formula, namely the base confidence 0.7 times the factor
0.7 + 0.3 * ragScore times the completion factor (stop 1.0, length 0.8,
otherwise 0.6) times the length factor (1.0 on word counts in [20, 200],
0.8 below 20, 0.9 above 200), capped at 1.0; for a rag relevance in [0, 1]
the result always lies in [0, 1], and there is no error path. -/
theorem calculateConfidenceScore_spec (response : String) (ragScore : ℚ)
    (finishReason : String) (h0 : 0 ≤ ragScore) (h1 : ragScore ≤ 1) :
    calculateConfidenceScore response ragScore finishReason =
      min (0.7 * (0.7 + 0.3 * ragScore) * completionFactor finishReason *
        lengthFactor (jsSplitWsLength response.toList)) 1
    ∧ 0 ≤ calculateConfidenceScore response ragScore finishReason
    ∧ calculateConfidenceScore response ragScore finishReason ≤ 1 := by
  have heq : calculateConfidenceScore response ragScore finishReason =
      min (0.7 * (0.7 + 0.3 * ragScore) * completionFactor finishReason *
        lengthFactor (jsSplitWsLength response.toList)) 1 := by
    unfold calculateConfidenceScore completionFactor lengthFactor
    simp only [String.toList]
    split_ifs <;> norm_num
  refine ⟨heq, ?_, ?_⟩
  · rw [heq]
    refine le_min ?_ (by norm_num)
    have hrag : (0 : ℚ) ≤ 0.7 * (0.7 + 0.3 * ragScore) := by nlinarith
    exact mul_nonneg (mul_nonneg hrag (completionFactor_nonneg finishReason))
      (lengthFactor_nonneg (jsSplitWsLength response.toList))
  · rw [heq]
    exact min_le_right _ _

/-- Witness for C1 at a concrete input. -/
theorem calculateConfidenceScore_spec_witness :
    (0 : ℚ) ≤ 0.85 ∧ (0.85 : ℚ) ≤ 1 ∧
    (calculateConfidenceScore "hello world" 0.85 "stop" =
        min (0.7 * (0.7 + 0.3 * 0.85) * completionFactor "stop" *
          lengthFactor (jsSplitWsLength "hello world".toList)) 1
      ∧ 0 ≤ calculateConfidenceScore "hello world" 0.85 "stop"
      ∧ calculateConfidenceScore "hello world" 0.85 "stop" ≤ 1) :=
  ⟨by norm_num, by norm_num,
    calculateConfidenceScore_spec "hello world" 0.85 "stop" (by norm_num) (by norm_num)⟩

/-- One model answer as assembled by queryMultipleModels in chatWorker.js.
On success the push carries model, response, confidence and tokensUsed; on
failure it carries model, a fixed placeholder response, confidence 0.0 and
the error message. Fields absent from a push are modelled as none. -/
structure ModelResponse where
  model : String
  response : String
  confidence : ℚ
  tokensUsed : Option ℕ
  error : Option String
  deriving Repr, DecidableEq

/-- Insertion step of the stable descending sort: the inserted element came
earlier in the input, so it is placed before any element whose confidence
does not exceed it (ties keep input order, as the stable JavaScript
Array.prototype.sort does with the comparator on confidence). -/
def insertDesc (x : ModelResponse) : List ModelResponse → List ModelResponse
  | [] => [x]
  | y :: ys => if y.confidence ≤ x.confidence then x :: y :: ys else y :: insertDesc x ys

/-- Stable sort by descending confidence, modelling the JavaScript call
sort with comparator subtracting confidences in chatWorker.js. -/
def sortByConfidenceDesc : List ModelResponse → List ModelResponse
  | [] => []
  | x :: xs => insertDesc x (sortByConfidenceDesc xs)

/-- Embedding of selectBestResponse from chatWorker.js: sort a copy of the
list by descending confidence and take the first element; on the empty
list the JavaScript original yields undefined, modelled as none. -/
def selectBestResponse (modelResponses : List ModelResponse) : Option ModelResponse :=
  (sortByConfidenceDesc modelResponses).head?

/-- First element of maximal confidence in input order, the reference
description of what the selector should return. -/
def firstMaxResponse : List ModelResponse → Option ModelResponse
  | [] => none
  | x :: xs =>
    match firstMaxResponse xs with
    | none => some x
    | some b => some (if x.confidence < b.confidence then b else x)

theorem firstMaxResponse_eq_none_iff (rs : List ModelResponse) :
    firstMaxResponse rs = none ↔ rs = [] := by
  cases rs with
  | nil => simp [firstMaxResponse]
  | cons x xs =>
    simp only [firstMaxResponse]
    cases firstMaxResponse xs <;> simp

theorem head_insertDesc (x : ModelResponse) (s : List ModelResponse) :
    (insertDesc x s).head? =
      match s.head? with
      | none => some x
      | some y => some (if x.confidence < y.confidence then y else x) := by
  cases s with
  | nil => rfl
  | cons y ys =>
    simp only [insertDesc, List.head?]
    by_cases h : y.confidence ≤ x.confidence
    · have : ¬ x.confidence < y.confidence := not_lt.mpr h
      simp [h, this]
    · have : x.confidence < y.confidence := not_le.mp h
      simp [h, this]

theorem head_sortByConfidenceDesc (rs : List ModelResponse) :
    (sortByConfidenceDesc rs).head? = firstMaxResponse rs := by
  induction rs with
  | nil => rfl
  | cons x xs ih =>
    rw [sortByConfidenceDesc, head_insertDesc, ih]
    cases hfm : firstMaxResponse xs with
    | none => simp [firstMaxResponse, hfm]
    | some b => simp [firstMaxResponse, hfm]

theorem firstMaxResponse_is_ub (rs : List ModelResponse) (b : ModelResponse)
    (hb : firstMaxResponse rs = some b) :
    ∀ r ∈ rs, r.confidence ≤ b.confidence := by
  induction rs generalizing b with
  | nil => simp [firstMaxResponse] at hb
  | cons x xs ih =>
    rw [firstMaxResponse] at hb
    cases hfm : firstMaxResponse xs with
    | none =>
      rw [hfm] at hb
      simp only [Option.some.injEq] at hb
      subst hb
      have hxs : xs = [] := (firstMaxResponse_eq_none_iff xs).mp hfm
      subst hxs
      intro r hr
      rcases List.mem_singleton.mp hr with rfl
      exact le_refl _
    | some c =>
      rw [hfm] at hb
      simp only [Option.some.injEq] at hb
      intro r hr
      rcases List.mem_cons.mp hr with rfl | hrxs
      · by_cases hxc : r.confidence < c.confidence
        · rw [if_pos hxc] at hb
          subst hb
          exact le_of_lt hxc
        · rw [if_neg hxc] at hb
          subst hb
          exact le_refl _
      · have hle := ih c hfm r hrxs
        by_cases hxc : x.confidence < c.confidence
        · rw [if_pos hxc] at hb
          subst hb
          exact hle
        · rw [if_neg hxc] at hb
          subst hb
          exact hle.trans (not_lt.mp hxc)

theorem firstMaxResponse_earliest (rs : List ModelResponse) (b : ModelResponse)
    (hb : firstMaxResponse rs = some b) :
    ∃ l1 l2, rs = l1 ++ b :: l2 ∧ ∀ r ∈ l1, r.confidence < b.confidence := by
  induction rs generalizing b with
  | nil => simp [firstMaxResponse] at hb
  | cons x xs ih =>
    rw [firstMaxResponse] at hb
    cases hfm : firstMaxResponse xs with
    | none =>
      rw [hfm] at hb
      simp only [Option.some.injEq] at hb
      subst hb
      exact ⟨[], xs, rfl, by simp⟩
    | some c =>
      rw [hfm] at hb
      simp only [Option.some.injEq] at hb
      by_cases hxc : x.confidence < c.confidence
      · rw [if_pos hxc] at hb
        subst hb
        obtain ⟨l1, l2, hsplit, hlt⟩ := ih c hfm
        refine ⟨x :: l1, l2, by simp [hsplit], ?_⟩
        intro r hr
        rcases List.mem_cons.mp hr with rfl | hrl1
        · exact hxc
        · exact hlt r hrl1
      · rw [if_neg hxc] at hb
        subst hb
        exact ⟨[], xs, rfl, by simp⟩

/-- C2: on every non-empty list of model responses the selector returns an
element whose confidence is maximal, and among equal maxima the earliest in
input order (every strictly earlier element has strictly smaller
confidence); it never fails on non-empty input. -/
theorem selectBestResponse_spec (rs : List ModelResponse) (h : rs ≠ []) :
    ∃ b, selectBestResponse rs = some b
      ∧ (∀ r ∈ rs, r.confidence ≤ b.confidence)
      ∧ ∃ l1 l2, rs = l1 ++ b :: l2 ∧ ∀ r ∈ l1, r.confidence < b.confidence := by
  cases hfm : firstMaxResponse rs with
  | none => exact absurd ((firstMaxResponse_eq_none_iff rs).mp hfm) h
  | some b =>
    refine ⟨b, ?_, firstMaxResponse_is_ub rs b hfm, firstMaxResponse_earliest rs b hfm⟩
    rw [selectBestResponse, head_sortByConfidenceDesc, hfm]

/-- Witness for C2 on a concrete two-element tie: the earlier element wins. -/
theorem selectBestResponse_spec_witness :
    ∃ b, selectBestResponse
        [⟨"gpt-4", "a", 0, none, some "x"⟩, ⟨"gpt-35-turbo", "b", 0, none, some "y"⟩] = some b
      ∧ (∀ r ∈ [(⟨"gpt-4", "a", 0, none, some "x"⟩ : ModelResponse),
                ⟨"gpt-35-turbo", "b", 0, none, some "y"⟩], r.confidence ≤ b.confidence)
      ∧ ∃ l1 l2, [(⟨"gpt-4", "a", 0, none, some "x"⟩ : ModelResponse),
                  ⟨"gpt-35-turbo", "b", 0, none, some "y"⟩] = l1 ++ b :: l2
          ∧ ∀ r ∈ l1, r.confidence < b.confidence :=
  selectBestResponse_spec
    [⟨"gpt-4", "a", 0, none, some "x"⟩, ⟨"gpt-35-turbo", "b", 0, none, some "y"⟩]
    (by simp)

/-- Context bundle returned by retrieveRagContext in chatWorker.js. -/
structure RagContext where
  context : String
  sources : List String
  relevanceScore : ℚ
  deriving DecidableEq

/-- The hard-coded context the try block of retrieveRagContext currently
produces; the real vector-search request is commented out in the source. -/
def mockRagContext : RagContext :=
  { context := "Retrieved relevant information from knowledge base..."
    sources := ["SharePoint Doc 1", "SharePoint Doc 2"]
    relevanceScore := 0.85 }

/-- Embedding of retrieveRagContext from chatWorker.js as a function of the
outcome of its try block (in the current source the block always succeeds
with mockRagContext): any thrown error is caught and replaced by the empty
context with relevance score 0.0, and nothing is rethrown. -/
def retrieveRagContext (tryOutcome : Except String RagContext) : RagContext :=
  match tryOutcome with
  | Except.ok ragContext => ragContext
  | Except.error _ => { context := "", sources := [], relevanceScore := 0.0 }

/-- One configured model of the fan-out in chatWorker.js. -/
structure ModelConfig where
  name : String
  deployment : String
  deriving DecidableEq

/-- The configured model list of queryMultipleModels, in query order. -/
def modelsToQuery : List ModelConfig :=
  [{ name := "gpt-4", deployment := "gpt-4" },
   { name := "gpt-35-turbo", deployment := "gpt-35-turbo" }]

/-- The parts of a successful chat-completion result the worker reads. -/
structure ChatCompletion where
  content : String
  finishReason : String
  totalTokens : ℕ
  deriving DecidableEq

/-- The JavaScript falsy-or expression reading relevanceScore with fallback
0.5 inside queryMultipleModels: 0.0 is falsy, every other number is truthy. -/
def ragScoreOrDefault (relevanceScore : ℚ) : ℚ :=
  if relevanceScore = 0 then 0.5 else relevanceScore

/-- One iteration of the model loop in queryMultipleModels: a successful
call pushes the answer with its computed confidence and token usage; a
failing call is caught and pushed as the fixed placeholder response with
confidence 0.0 and the error message. -/
def queryOneModel (ragContext : RagContext)
    (callOutcome : Except String ChatCompletion) (model : ModelConfig) :
    ModelResponse :=
  match callOutcome with
  | Except.ok result =>
      { model := model.name
        response := result.content
        confidence := calculateConfidenceScore result.content
          (ragScoreOrDefault ragContext.relevanceScore) result.finishReason
        tokensUsed := some result.totalTokens
        error := none }
  | Except.error e =>
      { model := model.name
        response := "Error generating response"
        confidence := 0.0
        tokensUsed := none
        error := some e }

/-- Embedding of queryMultipleModels from chatWorker.js: the loop over the
configured models in order, the outcome of each external completion call
given by the oracle argument. -/
def queryMultipleModels (ragContext : RagContext)
    (call : ModelConfig → Except String ChatCompletion) : List ModelResponse :=
  modelsToQuery.map (fun model => queryOneModel ragContext (call model) model)

/-- Metadata bag attached by the ingest function in chatIngest.js. -/
structure MessageMetadata where
  source : String
  requiresRAG : Bool
  requiresMultiModel : Bool
  deriving DecidableEq

/-- The queue envelope built by chatIngest.js (formattedMessage) and parsed
back by the worker. -/
structure QueueEnvelope where
  messageId : String
  conversationId : String
  userId : String
  userMessage : String
  timestamp : String
  metadata : MessageMetadata
  deriving DecidableEq

/-- JavaScript falsy-or on an optional string field: a missing field and
the empty string are falsy, everything else passes through. -/
def jsStringOr (field : Option String) (fallback : String) : String :=
  match field with
  | none => fallback
  | some s => if s = "" then fallback else s

/-- Parsed request body of the chat ingest endpoint. -/
structure IngestBody where
  message : Option String
  userId : Option String
  conversationId : Option String
  deriving DecidableEq

/-- Body of the HTTP reply of the ingest handler: the stringified error
object or the stringified acknowledgment object. -/
inductive IngestResponseBody where
  | errorBody (error : String)
  | ackBody (status : String) (messageId : String)
  deriving DecidableEq

/-- HTTP reply of the ingest handler. -/
structure IngestResponse where
  status : ℕ
  body : IngestResponseBody
  deriving DecidableEq

/-- Embedding of the chat ingest handler from chatIngest.js as a pure
function of the parsed request body and of the environment readings
Date.now (epoch milliseconds) and the ISO-8601 timestamp string; the result
pairs the HTTP response with the message set on the service-bus output
binding, none when nothing is enqueued. -/
def chatIngestHandler (body : IngestBody) (nowMillis : ℕ) (nowIso : String) :
    IngestResponse × Option QueueEnvelope :=
  let userMessage := jsStringOr body.message ""
  let userId := jsStringOr body.userId "unknown"
  let conversationId := jsStringOr body.conversationId ""
  if userMessage = "" then
    ({ status := 400, body := IngestResponseBody.errorBody "Message is required" }, none)
  else
    let formattedMessage : QueueEnvelope :=
      { messageId := conversationId ++ "_" ++ toString nowMillis
        conversationId := conversationId
        userId := userId
        userMessage := userMessage
        timestamp := nowIso
        metadata :=
          { source := "bot_service", requiresRAG := true, requiresMultiModel := true } }
    ({ status := 202,
       body := IngestResponseBody.ackBody "accepted" formattedMessage.messageId },
     some formattedMessage)

/-- One entry of allModelScores in the worker final response. -/
structure ScoreEntry where
  model : String
  confidence : ℚ
  deriving DecidableEq

/-- The final response record assembled in Step 4 of the worker handler in
chatWorker.js. -/
structure FinalResponse where
  messageId : String
  conversationId : String
  response : String
  confidenceScore : ℚ
  selectedModel : String
  allModelScores : List ScoreEntry
  ragSources : List String
  timestamp : String
  deriving DecidableEq

/-- The keys of the finalResponse object literal in chatWorker.js, in
source order; the record stored to Cosmos, sent to the webhook and written
to the blob log holds exactly these fields. -/
def finalResponseKeys : List String :=
  ["messageId", "conversationId", "response", "confidenceScore",
   "selectedModel", "allModelScores", "ragSources", "timestamp"]

/-- Embedding of the worker handler of chatWorker.js, Steps 1 to 4: read
the queue message, retrieve RAG context, fan out over the configured
models, select the best response and assemble the final record (the
storage, webhook and blob steps forward the record unchanged). External
outcomes are the ragOutcome and call parameters. The JavaScript original
would throw on an undefined best response; that case is modelled as none
and never occurs since the configured model list is non-empty. -/
def chatWorkerHandler (message : QueueEnvelope)
    (ragOutcome : Except String RagContext)
    (call : ModelConfig → Except String ChatCompletion) : Option FinalResponse :=
  let ragContext := retrieveRagContext ragOutcome
  let modelResponses := queryMultipleModels ragContext call
  match selectBestResponse modelResponses with
  | none => none
  | some bestResponse =>
      some { messageId := message.messageId
             conversationId := message.conversationId
             response := bestResponse.response
             confidenceScore := bestResponse.confidence
             selectedModel := bestResponse.model
             allModelScores :=
               modelResponses.map (fun r => { model := r.model, confidence := r.confidence })
             ragSources := ragContext.sources
             timestamp := message.timestamp }

/-- Response shape of the models module used by orchestrator.js. -/
structure OrchResponse where
  model : String
  text : String
  confidence_hint : ℚ
  deriving DecidableEq

/-- Result of callGPT4 in the models module on a successful completion
whose answer text is the argument: the confidence hint is hard-coded 0.9. -/
def callGPT4Result (content : String) : OrchResponse :=
  { model := "gpt-4o", text := content, confidence_hint := 0.9 }

/-- Result of callGPT35 in the models module: hint hard-coded 0.7. -/
def callGPT35Result (content : String) : OrchResponse :=
  { model := "gpt-35-turbo", text := content, confidence_hint := 0.7 }

/-- JavaScript Math.round: half-way cases round toward positive infinity. -/
def jsRound (x : ℚ) : ℤ := ⌊x + 1 / 2⌋

/-- Embedding of computeConfidence from the confidence module: the mean of
the confidence hints of the responses, rounded to two decimal places. On
the empty list the JavaScript original yields NaN while this embedding
yields 0; the module only ever receives the two-element response list. -/
def computeConfidence (responses : List OrchResponse) : ℚ :=
  let scores := responses.map OrchResponse.confidence_hint
  let average := scores.sum / (scores.length : ℚ)
  (jsRound (average * 100) : ℚ) / 100

/-- Result of the retrieveContext placeholder in the RAG module. -/
structure OrchContextData where
  context : String
  sources : List String
  deriving DecidableEq

/-- The placeholder context the RAG module always returns. -/
def orchRetrieveContext : OrchContextData :=
  { context :=
      "Azure Functions allow serverless orchestration.\nAzure Bot Service integrates with Speech SDK."
    sources := ["doc1", "doc2"] }

/-- Return shape of runOrchestration in orchestrator.js. -/
structure OrchResult where
  answer : String
  confidence : ℚ
  sources : List String
  deriving DecidableEq

/-- Embedding of runOrchestration from orchestrator.js on its success path,
as a function of the two completion texts the external model calls return:
the answer is the GPT-4 text, the confidence comes from computeConfidence
over both responses, the sources from the RAG module. -/
def runOrchestration (gpt4Text gpt35Text : String) : OrchResult :=
  let contextData := orchRetrieveContext
  let responseA := callGPT4Result gpt4Text
  let responseB := callGPT35Result gpt35Text
  let responses := [responseA, responseB]
  { answer := responseA.text
    confidence := computeConfidence responses
    sources := contextData.sources }

/-- Modelled from the spec: outcome of one provisioning step of the
provisioning worker, which is absent from the repository (only its README
documents it): a step succeeds with a resource URL, fails with an error
string, or is skipped without being attempted. -/
inductive StepOutcome where
  | stepSuccess (url : String)
  | stepFailure (err : String)
  | stepSkipped
  deriving DecidableEq

/-- Whether a step outcome is a success. -/
def StepOutcome.isSuccess : StepOutcome → Bool
  | StepOutcome.stepSuccess _ => true
  | _ => false

/-- Outcome of an attempted external provisioning call. -/
def stepOutcomeOf (callOutcome : Except String String) : StepOutcome :=
  match callOutcome with
  | Except.ok url => StepOutcome.stepSuccess url
  | Except.error e => StepOutcome.stepFailure e

/-- Modelled from the spec: the per-step result map of the provisioning
flow, keyed entraInvite, teams, sharepoint, sharepointList. -/
structure ProvisioningResults where
  entraInvite : StepOutcome
  teams : StepOutcome
  sharepoint : StepOutcome
  sharepointList : StepOutcome
  deriving DecidableEq

/-- Number of successful steps in a provisioning result map. -/
def ProvisioningResults.successCount (r : ProvisioningResults) : ℕ :=
  (if r.entraInvite.isSuccess then 1 else 0) + (if r.teams.isSuccess then 1 else 0)
    + (if r.sharepoint.isSuccess then 1 else 0) + (if r.sharepointList.isSuccess then 1 else 0)

/-- Modelled from the spec: the provisioning worker step sequence (no
provisioning worker code is present in the repository; the README and the
specification describe it). The guest invite is attempted first; team
creation is attempted regardless of the invite outcome; the SharePoint
site and list steps are attempted only when team creation succeeded and
are skipped entirely otherwise. The result always carries the per-step
map, and the overall status is completed when every step succeeded, failed
when no step succeeded, and partial otherwise. -/
def runProvisioningSteps (invite team site resourceList : Except String String) :
    ProvisioningResults × String :=
  let inviteRes := stepOutcomeOf invite
  let teamRes := stepOutcomeOf team
  let siteRes := if teamRes.isSuccess then stepOutcomeOf site else StepOutcome.stepSkipped
  let listRes := if teamRes.isSuccess then stepOutcomeOf resourceList else StepOutcome.stepSkipped
  let results : ProvisioningResults :=
    { entraInvite := inviteRes, teams := teamRes, sharepoint := siteRes, sharepointList := listRes }
  let status :=
    if results.successCount = 4 then "completed"
    else if results.successCount = 0 then "failed"
    else "partial"
  (results, status)

/-- C4: a chat ingest request whose message field is absent or empty is
answered with status 400 and the fixed error body, and nothing is set on
the queue output binding. -/
theorem chatIngest_rejects_missing_message (body : IngestBody) (nowMillis : ℕ)
    (nowIso : String) (h : body.message = none ∨ body.message = some "") :
    (chatIngestHandler body nowMillis nowIso).1.status = 400
    ∧ (chatIngestHandler body nowMillis nowIso).1.body
        = IngestResponseBody.errorBody "Message is required"
    ∧ (chatIngestHandler body nowMillis nowIso).2 = none := by
  have hmsg : jsStringOr body.message "" = "" := by
    rcases h with h | h <;> simp [jsStringOr, h]
  simp [chatIngestHandler, hmsg]

/-- Witness for C4: an ingest body without a message. -/
theorem chatIngest_rejects_missing_message_witness :
    ((⟨none, some "u1", some "c1"⟩ : IngestBody).message = none
      ∨ (⟨none, some "u1", some "c1"⟩ : IngestBody).message = some "")
    ∧ ((chatIngestHandler ⟨none, some "u1", some "c1"⟩ 1706534400000 "t").1.status = 400
      ∧ (chatIngestHandler ⟨none, some "u1", some "c1"⟩ 1706534400000 "t").1.body
          = IngestResponseBody.errorBody "Message is required"
      ∧ (chatIngestHandler ⟨none, some "u1", some "c1"⟩ 1706534400000 "t").2 = none) :=
  ⟨Or.inl rfl,
    chatIngest_rejects_missing_message ⟨none, some "u1", some "c1"⟩ 1706534400000 "t"
      (Or.inl rfl)⟩

/-- C5: a valid chat ingest request (non-empty message) is acknowledged
synchronously with status 202 and an accepted body whose identifier is the
conversation id, an underscore and the current epoch milliseconds, and
exactly one envelope is set on the queue binding; the envelope carries the
same identifier, the payload fields (with the documented default for a
missing user id), the ISO timestamp reading and the metadata bag. -/
theorem chatIngest_accepts_valid_message (body : IngestBody) (nowMillis : ℕ)
    (nowIso : String) (m : String) (hm : body.message = some m) (hne : m ≠ "") :
    (chatIngestHandler body nowMillis nowIso).1.status = 202
    ∧ (chatIngestHandler body nowMillis nowIso).1.body
        = IngestResponseBody.ackBody "accepted"
            (jsStringOr body.conversationId "" ++ "_" ++ toString nowMillis)
    ∧ (chatIngestHandler body nowMillis nowIso).2
        = some { messageId := jsStringOr body.conversationId "" ++ "_" ++ toString nowMillis
                 conversationId := jsStringOr body.conversationId ""
                 userId := jsStringOr body.userId "unknown"
                 userMessage := m
                 timestamp := nowIso
                 metadata :=
                   { source := "bot_service", requiresRAG := true, requiresMultiModel := true } } := by
  have hmsg : jsStringOr body.message "" = m := by simp [jsStringOr, hm, hne]
  simp [chatIngestHandler, hmsg, hne]

/-- Witness for C5: a complete valid ingest request. -/
theorem chatIngest_accepts_valid_message_witness :
    (⟨some "What is our refund policy?", some "u1", some "c1"⟩ : IngestBody).message
        = some "What is our refund policy?"
    ∧ "What is our refund policy?" ≠ ""
    ∧ ((chatIngestHandler ⟨some "What is our refund policy?", some "u1", some "c1"⟩
          1706534400000 "2024-01-29T12:00:00.000Z").1.status = 202
      ∧ (chatIngestHandler ⟨some "What is our refund policy?", some "u1", some "c1"⟩
          1706534400000 "2024-01-29T12:00:00.000Z").1.body
          = IngestResponseBody.ackBody "accepted"
              (jsStringOr (some "c1") "" ++ "_" ++ toString 1706534400000)
      ∧ (chatIngestHandler ⟨some "What is our refund policy?", some "u1", some "c1"⟩
          1706534400000 "2024-01-29T12:00:00.000Z").2
          = some { messageId := jsStringOr (some "c1") "" ++ "_" ++ toString 1706534400000
                   conversationId := jsStringOr (some "c1") ""
                   userId := jsStringOr (some "u1") "unknown"
                   userMessage := "What is our refund policy?"
                   timestamp := "2024-01-29T12:00:00.000Z"
                   metadata :=
                     { source := "bot_service", requiresRAG := true,
                       requiresMultiModel := true } }) :=
  ⟨rfl, by decide,
    chatIngest_accepts_valid_message ⟨some "What is our refund policy?", some "u1", some "c1"⟩
      1706534400000 "2024-01-29T12:00:00.000Z" "What is our refund policy?" rfl (by decide)⟩

theorem selectBestResponse_isSome (rs : List ModelResponse) (h : rs ≠ []) :
    (selectBestResponse rs).isSome = true := by
  rw [selectBestResponse, head_sortByConfidenceDesc]
  cases hfm : firstMaxResponse rs with
  | none => exact absurd ((firstMaxResponse_eq_none_iff rs).mp hfm) h
  | some b => rfl

/-- C6: a failure of the external call inside the context retriever is
caught and never propagated to the caller: the retriever returns the empty
RagContext (empty text, no sources, relevance score 0.0), and the worker
still proceeds through the model calls to a final result. -/
theorem retrieveRagContext_failure_degrades (tryOutcome : Except String RagContext)
    (e : String) (h : tryOutcome = Except.error e) :
    retrieveRagContext tryOutcome = { context := "", sources := [], relevanceScore := 0.0 }
    ∧ ∀ (message : QueueEnvelope) (call : ModelConfig → Except String ChatCompletion),
        (chatWorkerHandler message tryOutcome call).isSome = true := by
  subst h
  refine ⟨rfl, ?_⟩
  intro message call
  have hne : queryMultipleModels (retrieveRagContext (Except.error e)) call ≠ [] := by
    simp [queryMultipleModels, modelsToQuery]
  obtain ⟨b, hb⟩ := Option.isSome_iff_exists.mp
    (selectBestResponse_isSome (queryMultipleModels (retrieveRagContext (Except.error e)) call) hne)
  simp [chatWorkerHandler, hb]

/-- Witness for C6 at a concrete failing retrieval. -/
theorem retrieveRagContext_failure_degrades_witness :
    retrieveRagContext (Except.error "search unavailable")
        = { context := "", sources := [], relevanceScore := 0.0 }
    ∧ ∀ (message : QueueEnvelope) (call : ModelConfig → Except String ChatCompletion),
        (chatWorkerHandler message (Except.error "search unavailable") call).isSome = true :=
  retrieveRagContext_failure_degrades (Except.error "search unavailable")
    "search unavailable" rfl

/-- C7: the fan-out returns one entry per configured model, in call order,
whatever each call outcome is, so one model failing never suppresses or
reorders the entries of the others; the entry of a model whose call failed
is the fixed placeholder response with confidence forced to 0.0 and the
error field populated from the thrown message. -/
theorem queryMultipleModels_per_model (ragContext : RagContext)
    (call : ModelConfig → Except String ChatCompletion) :
    (queryMultipleModels ragContext call).length = modelsToQuery.length
    ∧ (∀ i : ℕ, ((queryMultipleModels ragContext call)[i]?).map ModelResponse.model
        = (modelsToQuery[i]?).map ModelConfig.name)
    ∧ ∀ (i : ℕ) (model : ModelConfig) (e : String),
        modelsToQuery[i]? = some model → call model = Except.error e →
        (queryMultipleModels ragContext call)[i]?
          = some { model := model.name, response := "Error generating response",
                   confidence := 0.0, tokensUsed := none, error := some e } := by
  refine ⟨by simp [queryMultipleModels], ?_, ?_⟩
  · intro i
    rw [queryMultipleModels, List.getElem?_map]
    cases hm : modelsToQuery[i]? with
    | none => rfl
    | some model => cases hc : call model <;> simp [queryOneModel, hc]
  · intro i model e hm hc
    rw [queryMultipleModels, List.getElem?_map, hm]
    simp [queryOneModel, hc]

/-- C10: the rag relevance handed to the confidence scorer is never 0.0: a
relevance score of 0.0, as produced by a failed retrieval, is replaced by
0.5, making the multiplicative rag factor 0.85 (hence at least 0.85)
instead of 0.7; and on every successful model call the scorer receives
exactly this defaulted value. -/
theorem ragScoreOrDefault_spec (ragContext : RagContext)
    (result : ChatCompletion) (model : ModelConfig) :
    ragScoreOrDefault ragContext.relevanceScore ≠ 0
    ∧ (ragContext.relevanceScore = 0 →
        ragScoreOrDefault ragContext.relevanceScore = 0.5
        ∧ 0.7 + 0.3 * ragScoreOrDefault ragContext.relevanceScore = 0.85
        ∧ (0.85 : ℚ) ≤ 0.7 + 0.3 * ragScoreOrDefault ragContext.relevanceScore)
    ∧ (queryOneModel ragContext (Except.ok result) model).confidence
        = calculateConfidenceScore result.content
            (ragScoreOrDefault ragContext.relevanceScore) result.finishReason := by
  refine ⟨?_, ?_, rfl⟩
  · rw [ragScoreOrDefault]
    split_ifs with h0
    · norm_num
    · exact h0
  · intro h0
    rw [ragScoreOrDefault, if_pos h0]
    norm_num

theorem firstMaxResponse_mem (rs : List ModelResponse) (b : ModelResponse)
    (hb : firstMaxResponse rs = some b) : b ∈ rs := by
  obtain ⟨l1, l2, hsplit, _⟩ := firstMaxResponse_earliest rs b hb
  rw [hsplit]
  exact List.mem_append_right l1 (List.mem_cons_self b l2)

/-- A concrete queue envelope used to instantiate the worker theorems. -/
def sampleEnvelope : QueueEnvelope :=
  { messageId := "c1_1706534400000", conversationId := "c1", userId := "u1",
    userMessage := "hello", timestamp := "2024-01-29T12:00:00.000Z",
    metadata := { source := "bot_service", requiresRAG := true, requiresMultiModel := true } }

/-- A call oracle on which every configured model fails. -/
def failAllCalls : ModelConfig → Except String ChatCompletion :=
  fun _ => Except.error "simulated dependency error"

/-- The final record the worker produces on sampleEnvelope when retrieval
yields the mock context and every model call fails. -/
def allFailedResult : FinalResponse :=
  { messageId := "c1_1706534400000", conversationId := "c1",
    response := "Error generating response", confidenceScore := 0,
    selectedModel := "gpt-4",
    allModelScores := [{ model := "gpt-4", confidence := 0 },
                       { model := "gpt-35-turbo", confidence := 0 }],
    ragSources := ["SharePoint Doc 1", "SharePoint Doc 2"],
    timestamp := "2024-01-29T12:00:00.000Z" }

theorem chatWorkerHandler_allFailed :
    chatWorkerHandler sampleEnvelope (Except.ok mockRagContext) failAllCalls
      = some allFailedResult := by
  norm_num [chatWorkerHandler, sampleEnvelope, failAllCalls, allFailedResult,
    retrieveRagContext, queryMultipleModels, modelsToQuery, queryOneModel,
    selectBestResponse, sortByConfidenceDesc, insertDesc, mockRagContext]

/-- C3 counterexample: the orchestrator re-derives its final confidence as
the two-decimal rounded average of the confidence hints (0.8 for the fixed
hints 0.9 and 0.7), which differs from their maximum 0.9, refuting the
claim that a final confidence always equals the maximum of the
contributing responses. -/
theorem orchestration_confidence_not_max :
    (runOrchestration "answer a" "answer b").confidence = 0.8
    ∧ (callGPT4Result "answer a").confidence_hint = 0.9
    ∧ (callGPT35Result "answer b").confidence_hint = 0.7
    ∧ (runOrchestration "answer a" "answer b").confidence
        ≠ max (callGPT4Result "answer a").confidence_hint
            (callGPT35Result "answer b").confidence_hint := by
  norm_num [runOrchestration, computeConfidence, callGPT4Result, callGPT35Result,
    jsRound, orchRetrieveContext, max_def]

/-- C3 amended: in the chat worker the final confidence equals the maximum
of the contributing model scores (it is an upper bound of allModelScores
and is attained in it), while in the orchestrator module the final
confidence is re-derived as the rounded average of the confidence hints,
always 0.8, not the maximum. -/
theorem finalResult_confidence_policy (message : QueueEnvelope)
    (ragOutcome : Except String RagContext)
    (call : ModelConfig → Except String ChatCompletion) (fr : FinalResponse)
    (h : chatWorkerHandler message ragOutcome call = some fr)
    (gpt4Text gpt35Text : String) :
    (∀ s ∈ fr.allModelScores, s.confidence ≤ fr.confidenceScore)
    ∧ fr.confidenceScore ∈ fr.allModelScores.map ScoreEntry.confidence
    ∧ (runOrchestration gpt4Text gpt35Text).confidence
        = (jsRound ((((callGPT4Result gpt4Text).confidence_hint
            + (callGPT35Result gpt35Text).confidence_hint) / 2) * 100) : ℚ) / 100
    ∧ (runOrchestration gpt4Text gpt35Text).confidence = 0.8 := by
  simp only [chatWorkerHandler] at h
  cases hsel : selectBestResponse (queryMultipleModels (retrieveRagContext ragOutcome) call) with
  | none => rw [hsel] at h; exact absurd h (by simp)
  | some best =>
    rw [hsel] at h
    simp only [Option.some.injEq] at h
    subst h
    have hfm : firstMaxResponse (queryMultipleModels (retrieveRagContext ragOutcome) call)
        = some best := by
      rw [← head_sortByConfidenceDesc]
      exact hsel
    have hub := firstMaxResponse_is_ub _ best hfm
    refine ⟨?_, ?_, ?_, ?_⟩
    · intro s hs
      obtain ⟨r, hr, rfl⟩ := List.mem_map.mp hs
      exact hub r hr
    · exact List.mem_map.mpr ⟨_, List.mem_map.mpr ⟨best, firstMaxResponse_mem _ best hfm, rfl⟩, rfl⟩
    · norm_num [runOrchestration, computeConfidence, callGPT4Result, callGPT35Result,
        orchRetrieveContext]
    · norm_num [runOrchestration, computeConfidence, callGPT4Result, callGPT35Result,
        jsRound, orchRetrieveContext]

/-- Witness for C3 amended, at the all-failed concrete run. -/
theorem finalResult_confidence_policy_witness :
    (∀ s ∈ allFailedResult.allModelScores, s.confidence ≤ allFailedResult.confidenceScore)
    ∧ allFailedResult.confidenceScore ∈ allFailedResult.allModelScores.map ScoreEntry.confidence
    ∧ (runOrchestration "x" "y").confidence
        = (jsRound ((((callGPT4Result "x").confidence_hint
            + (callGPT35Result "y").confidence_hint) / 2) * 100) : ℚ) / 100
    ∧ (runOrchestration "x" "y").confidence = 0.8 :=
  finalResult_confidence_policy sampleEnvelope (Except.ok mockRagContext) failAllCalls
    allFailedResult chatWorkerHandler_allFailed "x" "y"

/-- C8 counterexample: the worker final record carries no overall status
field that could be marked failed: on the concrete run where every model
fails it holds the first configured model with confidence 0.0, and the key
list of the record has no status entry. -/
theorem allFailed_result_has_no_status :
    chatWorkerHandler sampleEnvelope (Except.ok mockRagContext) failAllCalls
        = some allFailedResult
    ∧ allFailedResult.confidenceScore = 0
    ∧ allFailedResult.selectedModel = "gpt-4"
    ∧ "status" ∉ finalResponseKeys :=
  ⟨chatWorkerHandler_allFailed, rfl, rfl, by decide⟩

/-- C8 amended: when every configured model call fails, the selector still
returns the first configured model placeholder entry, and the final record
has confidence 0.0 and the first configured model name as selectedModel;
the record however carries no overall status field (its key list has no
status entry), so nothing is marked failed. -/
theorem worker_all_models_failed (message : QueueEnvelope)
    (ragOutcome : Except String RagContext)
    (call : ModelConfig → Except String ChatCompletion)
    (herr : ∀ model ∈ modelsToQuery, ∃ e, call model = Except.error e) :
    ∃ fr, chatWorkerHandler message ragOutcome call = some fr
      ∧ fr.confidenceScore = 0
      ∧ fr.selectedModel = (modelsToQuery.headD { name := "", deployment := "" }).name
      ∧ fr.response = "Error generating response"
      ∧ (∀ s ∈ fr.allModelScores, s.confidence = 0)
      ∧ "status" ∉ finalResponseKeys := by
  obtain ⟨e1, he1⟩ := herr { name := "gpt-4", deployment := "gpt-4" } (by simp [modelsToQuery])
  obtain ⟨e2, he2⟩ := herr { name := "gpt-35-turbo", deployment := "gpt-35-turbo" }
    (by simp [modelsToQuery])
  refine ⟨{ messageId := message.messageId, conversationId := message.conversationId,
            response := "Error generating response", confidenceScore := 0.0,
            selectedModel := "gpt-4",
            allModelScores := [{ model := "gpt-4", confidence := 0.0 },
                               { model := "gpt-35-turbo", confidence := 0.0 }],
            ragSources := (retrieveRagContext ragOutcome).sources,
            timestamp := message.timestamp }, ?_, by norm_num, by simp [modelsToQuery], rfl,
        ?_, by decide⟩
  · simp [chatWorkerHandler, queryMultipleModels, modelsToQuery, queryOneModel,
      he1, he2, selectBestResponse, sortByConfidenceDesc, insertDesc]
  · intro s hs
    simp only [List.mem_cons, List.not_mem_nil, or_false] at hs
    rcases hs with rfl | rfl <;> norm_num

/-- Witness for C8 amended at the concrete all-failing oracle. -/
theorem worker_all_models_failed_witness :
    ∃ fr, chatWorkerHandler sampleEnvelope (Except.ok mockRagContext) failAllCalls = some fr
      ∧ fr.confidenceScore = 0
      ∧ fr.selectedModel = (modelsToQuery.headD { name := "", deployment := "" }).name
      ∧ fr.response = "Error generating response"
      ∧ (∀ s ∈ fr.allModelScores, s.confidence = 0)
      ∧ "status" ∉ finalResponseKeys :=
  worker_all_models_failed sampleEnvelope (Except.ok mockRagContext) failAllCalls
    (fun _ _ => ⟨"simulated dependency error", rfl⟩)

/-- C9: team creation is attempted whatever the invite outcome; when team
creation fails the SharePoint site and list steps are never attempted; the
per-step map is always reported; and the overall status is completed
exactly when every step succeeded, failed exactly when no step succeeded,
and partial exactly when some but not all succeeded. Settled against the
spec-modelled step sequence, the worker itself being absent from the
repository. -/
theorem runProvisioningSteps_policy (invite team site resourceList : Except String String) :
    (runProvisioningSteps invite team site resourceList).1.entraInvite = stepOutcomeOf invite
    ∧ (runProvisioningSteps invite team site resourceList).1.teams = stepOutcomeOf team
    ∧ (∀ e, team = Except.error e →
        (runProvisioningSteps invite team site resourceList).1.sharepoint
            = StepOutcome.stepSkipped
        ∧ (runProvisioningSteps invite team site resourceList).1.sharepointList
            = StepOutcome.stepSkipped)
    ∧ ((runProvisioningSteps invite team site resourceList).2 = "completed"
        ↔ (runProvisioningSteps invite team site resourceList).1.successCount = 4)
    ∧ ((runProvisioningSteps invite team site resourceList).2 = "failed"
        ↔ (runProvisioningSteps invite team site resourceList).1.successCount = 0)
    ∧ ((runProvisioningSteps invite team site resourceList).2 = "partial"
        ↔ (0 < (runProvisioningSteps invite team site resourceList).1.successCount
            ∧ (runProvisioningSteps invite team site resourceList).1.successCount < 4)) := by
  rcases invite with einv | uinv <;> rcases team with etm | utm <;>
    rcases site with est | ust <;> rcases resourceList with erl | url <;>
      simp [runProvisioningSteps, stepOutcomeOf, StepOutcome.isSuccess,
        ProvisioningResults.successCount]

end AIFunction
